import Mathlib

/-!
Verification of the EpiHelix hybrid-retrieval pipeline against its
natural-language specification.

The Next.js middleware layer (`src/app/src/app/api/*/route.js`,
`src/app/src/lib/api/client.js`, `src/app/src/hooks/useChat.js`) is embedded
shallowly below: each route handler and client helper becomes a pure Lean
function over explicit request/response data.  The FastAPI retrieval backend
(keyword search, pagination) is not part of the repository snapshot, so those
two components are modelled from the specification text (§4.1, §4.5) and
marked as such in their doc comments.
-/

namespace EpiHelix

/-! ## JSON values and JavaScript-style helpers -/

/-- A JSON value, as produced by `response.json()` / `NextResponse.json`.
Numbers are restricted to integers; no route in scope inspects fractional
numeric bodies. -/
inductive Json where
  | null
  | bool (b : Bool)
  | num (n : Int)
  | str (s : String)
  | arr (xs : List Json)
  | obj (fields : List (String × Json))

/-- First binding of a key in a JSON object's field list. -/
def jsonFind (k : String) : List (String × Json) → Option Json
  | [] => none
  | (k', v) :: rest => if k' = k then some v else jsonFind k rest

/-- Field lookup on a JSON object (`data.field` in JavaScript): the first
binding of the key, `none` for a missing key or a non-object. -/
def Json.get : Json → String → Option Json
  | .obj fields, k => jsonFind k fields
  | _, _ => none

/-- JavaScript truthiness of a JSON value (`if (v)`): `null`, `false`, `0`
and `""` are falsy; arrays and objects are truthy. -/
def Json.truthy : Json → Bool
  | .null => false
  | .bool b => b
  | .num n => n ≠ 0
  | .str s => s ≠ ""
  | .arr _ => true
  | .obj _ => true

/-- JavaScript `a.field || b` for a JSON object: the value of `field` when present and
truthy, otherwise the fallback. Embeds the `errorData.detail || '…'`
pattern of the route handlers. -/
def jsFieldOr (j : Json) (field : String) (fallback : Json) : Json :=
  match j.get field with
  | some v => if v.truthy then v else fallback
  | none => fallback

/-- A missing query parameter is `none` (JavaScript `null` from
`searchParams.get`); a present parameter carries its string value. -/
abbrev Param := Option String

/-- JavaScript `searchParams.get(k) || d`: the default applies when the
parameter is absent (`null`) or the empty string (both falsy). Embeds lines
20–24 of the search route (`src/unnamed/part_012`). -/
def jsParamOr (p : Param) (d : String) : String :=
  match p with
  | none => d
  | some s => if s = "" then d else s

/-- Characters removed by JavaScript `String.prototype.trim`
(whitespace, restricted here to the ASCII whitespace class). -/
def jsWhitespace (c : Char) : Bool :=
  c = ' ' ∨ c = '\t' ∨ c = '\n' ∨ c = '\r' ∨ c = '\x0b' ∨ c = '\x0c'

/-- JavaScript `s.trim().length === 0`: every character of `s` is whitespace (trim
strips leading and trailing whitespace, so the result is empty exactly when
the whole string is whitespace). -/
def strBlank (s : String) : Bool :=
  s.data.all jsWhitespace

/-- Whether `pat` occurs at the start of `s` (on character lists). -/
def charsStartWith : List Char → List Char → Bool
  | [], _ => true
  | _ :: _, [] => false
  | a :: pat, b :: s => a = b && charsStartWith pat s

/-- Whether `pat` occurs contiguously anywhere in `s` (on character lists). -/
def charsContain (pat : List Char) : List Char → Bool
  | [] => charsStartWith pat []
  | c :: rest => charsStartWith pat (c :: rest) || charsContain pat rest

/-- JavaScript `s.includes(pat)`: substring containment. -/
def strContains (s pat : String) : Bool :=
  charsContain pat.data s.data

/-- JavaScript `!p || p.trim().length === 0` for a nullable string parameter: absent,
empty, or whitespace-only. This is the validation guard of both the search
route (`src/unnamed/part_012` line 27) and the chat route
(`src/app/src/app/api/chat/route.js` line 23). -/
def paramBlank (p : Param) : Bool :=
  match p with
  | none => true
  | some s => strBlank s

/-! ## HTTP responses as seen by the middleware -/

/-- The observable part of a `fetch` `Response`: status, the
`content-type` header, the result of attempting `response.json()`
(`none` when the body is not valid JSON), and the raw text body. -/
structure HttpResponse where
  status : Nat
  contentType : Option String
  jsonBody : Option Json
  textBody : String

/-- Property `Response.ok` per the fetch specification: status in the range 200–299. -/
def respOk (r : HttpResponse) : Bool :=
  200 ≤ r.status && r.status < 300

/-- A 5xx response (the transient server-error class of §7). -/
def is5xx (r : HttpResponse) : Bool :=
  500 ≤ r.status && r.status < 600

/-- Behaviour of a single backend `fetch` made by a route handler: it either
yields a response or rejects with a network error (caught by the handler's
`catch` block). -/
inductive BackendBehavior where
  | responds (r : HttpResponse)
  | netError (message : String)

/-! ## `GET /search` route (`src/unnamed/part_012`) -/

/-- The caller-supplied query parameters of `GET /search`. -/
structure SearchQueryParams where
  q : Param
  page : Param
  page_size : Param
  semantic : Param
  rerank : Param
  summarize : Param

/-- The query parameters the route sets on the backend `/search` URL:
`q`, `page`, `page_size` always; each boolean flag only when its effective
value is the string `"true"` (lines 35–47 of `src/unnamed/part_012`). -/
structure BackendSearchParams where
  q : String
  page : String
  page_size : String
  semantic : Option String
  rerank : Option String
  summarize : Option String
deriving DecidableEq

/-- What a route handler sends back to its caller. -/
structure RouteOutput where
  status : Nat
  body : Json

/-- One run of a route handler: the HTTP output together with the list of
backend calls it issued (in order). -/
structure SearchRouteRun where
  output : RouteOutput
  backendCalls : List BackendSearchParams

/-- The backend URL parameters built by `GET /search` from the caller's
parameters (lines 20–47 of `src/unnamed/part_012`). -/
def buildBackendSearchParams (p : SearchQueryParams) : BackendSearchParams :=
  let semantic := jsParamOr p.semantic "false"
  let rerank := jsParamOr p.rerank "true"
  let summarize := jsParamOr p.summarize "true"
  { q := (p.q).getD ""
    page := jsParamOr p.page "1"
    page_size := jsParamOr p.page_size "10"
    semantic := if semantic = "true" then some "true" else none
    rerank := if rerank = "true" then some "true" else none
    summarize := if summarize = "true" then some "true" else none }

/-- Handler `GET /search` of `src/unnamed/part_012`: validates `q`,
forwards to the FastAPI backend, returns the backend's JSON body on
success, and replays the backend's status with a JSON error body on a
non-ok response.  `backend` is the behaviour of the single `fetch` the
handler performs. -/
def searchRoute (p : SearchQueryParams) (backend : BackendBehavior) : SearchRouteRun :=
  if paramBlank p.q then
    { output := { status := 400
                  body := .obj [("error", .str "Query parameter \"q\" is required")] }
      backendCalls := [] }
  else
    let bp := buildBackendSearchParams p
    match backend with
    | .netError msg =>
      { output := { status := 500
                    body := .obj [("error", .str "Internal server error"),
                                  ("message", .str msg)] }
        backendCalls := [bp] }
    | .responds r =>
      if respOk r then
        match r.jsonBody with
        | some data => { output := { status := 200, body := data }, backendCalls := [bp] }
        | none =>
          -- `await response.json()` rejects on an ok response with an
          -- unparsable body; the outer catch returns a 500.
          { output := { status := 500
                        body := .obj [("error", .str "Internal server error"),
                                      ("message", .str "invalid json")] }
            backendCalls := [bp] }
      else
        let errorData := (r.jsonBody).getD (.obj [])
        { output := { status := r.status
                      body := .obj [("error", jsFieldOr errorData "detail" (.str "Search failed")),
                                    ("status", .num r.status)] }
          backendCalls := [bp] }

/-! ## `POST /chat` and `DELETE /chat` routes
(`src/app/src/app/api/chat/route.js`) -/

/-- The JSON body of a `POST /chat` request after destructuring:
`message` and `session_id` may be absent. -/
structure ChatPostBody where
  message : Param
  session_id : Param
  include_history : Option Bool

/-- The body the chat route posts to the backend `/chat/` endpoint
(`include_history` defaults to `true`). -/
structure ChatBackendCall where
  message : String
  session_id : Param
  include_history : Bool
deriving DecidableEq

/-- One run of the `POST /chat` handler. -/
structure ChatRouteRun where
  output : RouteOutput
  backendCalls : List ChatBackendCall

/-- The `POST /chat` handler: validates `message`, forwards to the backend,
replays backend errors, returns the backend's JSON body on success. -/
def chatPostRoute (b : ChatPostBody) (backend : BackendBehavior) : ChatRouteRun :=
  if paramBlank b.message then
    { output := { status := 400, body := .obj [("error", .str "message is required")] }
      backendCalls := [] }
  else
    let call : ChatBackendCall :=
      { message := (b.message).getD ""
        session_id := b.session_id
        include_history := (b.include_history).getD true }
    match backend with
    | .netError msg =>
      { output := { status := 500
                    body := .obj [("error", .str "Internal server error"),
                                  ("message", .str msg)] }
        backendCalls := [call] }
    | .responds r =>
      if respOk r then
        match r.jsonBody with
        | some data => { output := { status := 200, body := data }, backendCalls := [call] }
        | none =>
          { output := { status := 500
                        body := .obj [("error", .str "Internal server error"),
                                      ("message", .str "invalid json")] }
            backendCalls := [call] }
      else
        let errorData := (r.jsonBody).getD (.obj [])
        { output := { status := r.status
                      body := .obj [("error", jsFieldOr errorData "detail" (.str "Chat request failed")),
                                    ("status", .num r.status)] }
          backendCalls := [call] }

/-- One run of the `DELETE /chat` handler: the HTTP output together with the
backend URLs DELETEd (relative to the FastAPI base). -/
structure ChatDeleteRun where
  output : RouteOutput
  backendDeletes : List String

/-- The `DELETE /chat` handler (lines 82–117 of
`src/app/src/app/api/chat/route.js`): requires a truthy `session_id`, then
DELETEs `/chat/session/{session_id}` on the backend and answers
`{success: true}` when the backend responds ok. -/
def chatDeleteRoute (session_id : Param) (backend : BackendBehavior) : ChatDeleteRun :=
  -- `if (!session_id)`: absent or empty string.
  if session_id.getD "" = "" then
    { output := { status := 400, body := .obj [("error", .str "session_id is required")] }
      backendDeletes := [] }
  else
    let url := "/chat/session/" ++ session_id.getD ""
    match backend with
    | .netError msg =>
      { output := { status := 500
                    body := .obj [("error", .str "Internal server error"),
                                  ("message", .str msg)] }
        backendDeletes := [url] }
    | .responds r =>
      if respOk r then
        { output := { status := 200, body := .obj [("success", .bool true)] }
          backendDeletes := [url] }
      else
        let errorData := (r.jsonBody).getD (.obj [])
        { output := { status := r.status
                      body := .obj [("error", jsFieldOr errorData "detail" (.str "Failed to clear session"))] }
          backendDeletes := [url] }

/-! ## Core API client (`src/app/src/lib/api/client.js`) -/

/-- Default client timeout (`DEFAULT_CONFIG.timeout`, client.js line 36):
30 seconds. -/
def DEFAULT_TIMEOUT : Nat := 30000

/-- Behaviour of one underlying `fetch` call as observed by
`fetchWithTimeout`: it settles at some instant `t` (milliseconds) with a
response or a non-abort error, or it never settles on its own. -/
inductive FetchBehavior where
  | completesAt (t : Nat) (r : HttpResponse)
  | failsAt (t : Nat) (message : String)
  | never

/-- Result of `fetchWithTimeout` (client.js lines 50–68): the response, or
the `APIError('Request timeout', 408)` thrown on abort, or the rethrown
non-abort error. -/
inductive FetchResult where
  | ok (r : HttpResponse)
  | timeoutError (message : String) (status : Nat)
  | otherError (message : String)

/-- Function `fetchWithTimeout` (client.js lines 50–68): an
`AbortController` is armed to fire at `timeout` ms; a fetch settling
strictly before that instant wins, anything else is aborted and surfaces as
`APIError('Request timeout', 408)`; a non-abort rejection is rethrown. -/
def fetchWithTimeout (b : FetchBehavior) (timeout : Nat) : FetchResult :=
  match b with
  | .completesAt t r =>
    if t < timeout then .ok r else .timeoutError "Request timeout" 408
  | .failsAt t msg =>
    if t < timeout then .otherError msg else .timeoutError "Request timeout" 408
  | .never => .timeoutError "Request timeout" 408

/-- The instant at which the promise returned by `fetchWithTimeout`
settles: the fetch's own settling time when it beats the abort timer,
otherwise the abort instant `timeout` itself. -/
def fetchResolveTime (b : FetchBehavior) (timeout : Nat) : Nat :=
  match b with
  | .completesAt t _ => min t timeout
  | .failsAt t _ => min t timeout
  | .never => timeout

/-- Whether the request is aborted by the timeout timer rather than
settling on its own. -/
def fetchAborted (b : FetchBehavior) (timeout : Nat) : Bool :=
  match b with
  | .completesAt t _ => timeout ≤ t
  | .failsAt t _ => timeout ≤ t
  | .never => true

/-- Whether a response's `content-type` header marks it as JSON
(`contentType && contentType.includes('application/json')`,
client.js lines 76–77). -/
def isJsonContentType : Option String → Bool
  | none => false
  | some ct => strContains ct "application/json"

/-- Result of `handleResponse` (client.js lines 75–91), which either
resolves (JSON or text) or throws. -/
inductive ClientResult where
  | resolvedJson (j : Json)
  | resolvedText (t : String)
  | apiError (message : Json) (status : Nat) (data : Option Json)
  | jsError (message : String)

/-- The message `errorData.error || errorData.message || 'HTTP <status>'`
of client.js line 82. -/
def errorMessageChain (errorData : Json) (status : Nat) : Json :=
  jsFieldOr errorData "error"
    (jsFieldOr errorData "message" (.str ("HTTP " ++ toString status)))

/-- Function `handleResponse` (client.js lines 75–91): on a non-ok response
throws `APIError(message, status, errorData)`; on an ok JSON response
resolves with the parsed body (rejecting like `response.json()` when the
body is unparsable); on an ok non-JSON response resolves with the text. -/
def handleResponse (r : HttpResponse) : ClientResult :=
  let isJSON := isJsonContentType r.contentType
  if respOk r then
    if isJSON then
      match r.jsonBody with
      | some j => .resolvedJson j
      | none => .jsError "invalid json"
    else .resolvedText r.textBody
  else
    let errorData := if isJSON then (r.jsonBody).getD (.obj []) else .obj []
    .apiError (errorMessageChain errorData r.status) r.status (some errorData)

/-- One client request (`APIClient.get/post/delete`, client.js lines
125–198): the code performs exactly one `fetchWithTimeout` call — there is
no retry loop — then hands the response to `handleResponse`.  `b n` is the
behaviour the network would exhibit on the (n+1)-th attempt, so the embedded
run exposes how many attempts are actually made. -/
def clientRequest (b : Nat → FetchBehavior) (timeout : Nat) : ClientResult × Nat :=
  match fetchWithTimeout (b 0) timeout with
  | .ok r => (handleResponse r, 1)
  | .timeoutError msg status => (.apiError (.str msg) status none, 1)
  | .otherError msg => (.jsError msg, 1)

/-! ## Chat history state (`src/app/src/hooks/useChat.js`) -/

/-- One entry of the `messages` state of `useChat`.  The user entry has no
`sources` key; the assistant entry carries the backend's source list. -/
structure ChatMessage where
  role : String
  content : String
  sources : Option (List String)
deriving DecidableEq

/-- The `onSuccess` handler of the send-message mutation (useChat.js lines
163–171): appends the user message and the assistant reply (with sources)
to the previous message list. -/
def onSendSuccess (prev : List ChatMessage) (userMsg reply : String)
    (sources : List String) : List ChatMessage :=
  prev ++ [{ role := "user", content := userMsg, sources := none },
           { role := "assistant", content := reply, sources := some sources }]

/-- The `onSuccess` handler of the clear-session mutation (useChat.js lines
186–195): resets the message list to empty. -/
def onClearSuccess (_prev : List ChatMessage) : List ChatMessage := []

/-! ## Keyword retrieval, modelled from the spec

The FastAPI retrieval backend is not part of the repository snapshot
(`src/backend` carries only documentation; the Next.js routes above are its
callers), so the KeywordRetriever and Paginator are modelled from the
specification text. -/

/-- A knowledge-graph entity as the retriever sees it: stable unique id,
display label, and a description-like textual property (§3). -/
structure Entity where
  id : String
  label : String
  description : String
deriving DecidableEq

/-- Lower-case a string character-wise (case-insensitive matching). -/
def lowerChars (s : String) : List Char :=
  s.data.map Char.toLower

/-- Split a lower-cased query into whitespace-separated tokens. -/
def tokenizeAux : List Char → List Char → List (List Char)
  | [], acc => if acc = [] then [] else [acc.reverse]
  | c :: cs, acc =>
    if jsWhitespace c then
      if acc = [] then tokenizeAux cs [] else acc.reverse :: tokenizeAux cs []
    else tokenizeAux cs (c :: acc)

/-- Modelled from the spec: §4.1 token matching — the query is lower-cased
and split into tokens. -/
def tokenize (q : String) : List (List Char) :=
  tokenizeAux (lowerChars q) []

/-- Modelled from the spec: §4.1 field-weighted token match — a token
matching the label or id weighs 2, one matching only the description-like
property weighs 1 (label match > property match), otherwise 0. -/
def tokenWeight (e : Entity) (t : List Char) : Nat :=
  if charsContain t (lowerChars e.label) || charsContain t (lowerChars e.id) then 2
  else if charsContain t (lowerChars e.description) then 1
  else 0

/-- Modelled from the spec: §4.1 — an entity matches the query when at
least one query token matches one of its searched fields. -/
def entityMatches (q : String) (e : Entity) : Bool :=
  (tokenize q).any (fun t => tokenWeight e t ≠ 0)

/-- Modelled from the spec: §4.1 normalized lexical relevance — the
fraction of query tokens matched, weighted by field (each token contributes
its field weight out of a maximum of 2). -/
def lexicalScore (q : String) (e : Entity) : ℚ :=
  (((tokenize q).map (tokenWeight e)).sum : ℚ) / (2 * (tokenize q).length)

/-- A keyword search candidate: the entity together with its lexical
score (§3 SearchCandidate, keyword source). -/
structure SearchCandidate where
  entity : Entity
  score : ℚ
deriving DecidableEq

/-- Lexicographic order on character lists by code point — the entity-id
tie-break order of §4.2/§4.3. -/
def lexLe : List Char → List Char → Bool
  | [], _ => true
  | _ :: _, [] => false
  | a :: as, b :: bs =>
    if a.toNat < b.toNat then true
    else if b.toNat < a.toNat then false
    else lexLe as bs

/-- Modelled from the spec: the ranking order — descending by score, ties
broken by entity id ascending (§4.1 deterministic order, §4.3 tie-break). -/
def candBefore (a b : SearchCandidate) : Prop :=
  b.score < a.score ∨ (a.score = b.score ∧ lexLe a.entity.id.data b.entity.id.data = true)

instance : DecidableRel candBefore := fun a b => by
  unfold candBefore; exact inferInstance

/-- Modelled from the spec: §4.1 — all matching entities of the corpus,
scored and sorted by `candBefore`. -/
def rankCandidates (q : String) (corpus : List Entity) : List SearchCandidate :=
  ((corpus.filter (entityMatches q)).map
    (fun e => { entity := e, score := lexicalScore q e })).insertionSort candBefore

/-- Modelled from the spec: §4.1 KeywordRetriever contract
`search(query, limit) -> list<SearchCandidate>` — ranked matches, top
`limit`, the empty list when nothing matches. -/
def keywordSearch (q : String) (limit : Nat) (corpus : List Entity) : List SearchCandidate :=
  (rankCandidates q corpus).take limit

/-! ## Paginator, modelled from the spec (§4.5) -/

/-- The page structure of §3: the requested window plus paging metadata. -/
structure RankedPage where
  results : List SearchCandidate
  total : Nat
  page : Nat
  pageSize : Nat
  hasNext : Bool
  hasPrev : Bool

/-- Modelled from the spec: §4.5 Paginator — pure slicing of an
already-sorted list; `page` is 1-indexed; `pageSize` is clamped to the
configured maximum `maxPageSize`; a page beyond the range yields an empty
result list rather than an error. -/
def paginate (maxPageSize : Nat) (results : List SearchCandidate)
    (page pageSize : Nat) : RankedPage :=
  let ps := min pageSize maxPageSize
  { results := (results.drop ((page - 1) * ps)).take ps
    total := results.length
    page := page
    pageSize := ps
    hasNext := page * ps < results.length
    hasPrev := 1 < page }

/-! ## Claim C1 -/

/-- **C1** (amended): every `GET /search` whose `q` is missing or
whitespace-only and every `POST /chat` whose `message` is missing or
whitespace-only is answered immediately with a 400 client error and no
backend call is made.  (The original claim's further requirement that
out-of-range `page`/`page_size` values be rejected as client errors does
not hold: the route forwards them to the backend unvalidated, see
`c1_counterexample`.) -/
theorem c1_blank_input_rejected (p : SearchQueryParams) (body : ChatPostBody)
    (bk bk' : BackendBehavior)
    (hq : paramBlank p.q = true) (hm : paramBlank body.message = true) :
    (searchRoute p bk).output.status = 400 ∧
    (searchRoute p bk).backendCalls = [] ∧
    (chatPostRoute body bk').output.status = 400 ∧
    (chatPostRoute body bk').backendCalls = [] := by
  unfold searchRoute chatPostRoute
  simp [hq, hm]

/-- **C1** counterexample: a `GET /search` request with a valid `q` and an
out-of-range `page` value (`"0"`; pages are 1-indexed per §4.5) is not
surfaced as a client error — the handler forwards it to the backend and
replays the backend's answer. -/
theorem c1_counterexample :
    (searchRoute { q := some "malaria", page := some "0", page_size := some "10",
                   semantic := none, rerank := none, summarize := none }
        (.responds { status := 200, contentType := some "application/json",
                     jsonBody := some (.arr []), textBody := "" })).backendCalls ≠ [] ∧
    (searchRoute { q := some "malaria", page := some "0", page_size := some "10",
                   semantic := none, rerank := none, summarize := none }
        (.responds { status := 200, contentType := some "application/json",
                     jsonBody := some (.arr []), textBody := "" })).output.status = 200 := by
  constructor
  · decide
  · decide

/-- **C1** witness: the amended theorem applied to a whitespace-only search
query and an absent chat message. -/
theorem c1_witness :
    paramBlank (some "   ") = true ∧ paramBlank none = true ∧
    (searchRoute { q := some "   ", page := none, page_size := none,
                   semantic := none, rerank := none, summarize := none }
        (.netError "down")).output.status = 400 ∧
    (chatPostRoute { message := none, session_id := some "s1", include_history := none }
        (.netError "down")).backendCalls = [] :=
  ⟨by decide, by decide,
   (c1_blank_input_rejected
      { q := some "   ", page := none, page_size := none,
        semantic := none, rerank := none, summarize := none }
      { message := none, session_id := some "s1", include_history := none }
      (.netError "down") (.netError "down") (by decide) (by decide)).1,
   (c1_blank_input_rejected
      { q := some "   ", page := none, page_size := none,
        semantic := none, rerank := none, summarize := none }
      { message := none, session_id := some "s1", include_history := none }
      (.netError "down") (.netError "down") (by decide) (by decide)).2.2.2⟩

/-! ## Claim C3 -/

/-- **C3**: no client request waits forever — the promise settles no later
than the configured timeout (default 30000 ms), and a request aborted by
the timeout surfaces as `APIError('Request timeout', 408)` instead of a
hang. -/
theorem c3_timeout_bound (b : FetchBehavior) (timeout : Nat) :
    DEFAULT_TIMEOUT = 30000 ∧
    fetchResolveTime b timeout ≤ timeout ∧
    (fetchAborted b timeout = true →
      fetchWithTimeout b timeout = .timeoutError "Request timeout" 408) := by
  refine ⟨rfl, ?_, ?_⟩
  · cases b <;> simp [fetchResolveTime]
  · intro h
    cases b with
    | completesAt t r =>
      have ht : timeout ≤ t := by simpa [fetchAborted] using h
      simp [fetchWithTimeout, Nat.not_lt.mpr ht]
    | failsAt t msg =>
      have ht : timeout ≤ t := by simpa [fetchAborted] using h
      simp [fetchWithTimeout, Nat.not_lt.mpr ht]
    | never => rfl

/-- **C3** witness: a fetch that never settles on its own is aborted at the
default timeout and surfaces as a 408 `APIError`. -/
theorem c3_witness :
    fetchAborted .never 30000 = true ∧
    fetchWithTimeout .never 30000 = .timeoutError "Request timeout" 408 :=
  ⟨rfl, (c3_timeout_bound .never 30000).2.2 rfl⟩

/-! ## Claim C4 -/

/-- **C4**: starting from an empty history, every successfully answered
chat message appends exactly two entries — the user message then the
assistant reply with its sources — so two answered messages yield exactly
4 entries (2 user + 2 assistant) in send order, and a successful clear
empties the list. -/
theorem c4_chat_history (u₁ r₁ u₂ r₂ : String) (s₁ s₂ : List String) :
    (∀ prev u r s, (onSendSuccess prev u r s).length = prev.length + 2) ∧
    onSendSuccess (onSendSuccess [] u₁ r₁ s₁) u₂ r₂ s₂ =
      [{ role := "user", content := u₁, sources := none },
       { role := "assistant", content := r₁, sources := some s₁ },
       { role := "user", content := u₂, sources := none },
       { role := "assistant", content := r₂, sources := some s₂ }] ∧
    (onSendSuccess (onSendSuccess [] u₁ r₁ s₁) u₂ r₂ s₂).length = 4 ∧
    ((onSendSuccess (onSendSuccess [] u₁ r₁ s₁) u₂ r₂ s₂).filter
        (fun m => m.role == "user")).length = 2 ∧
    ((onSendSuccess (onSendSuccess [] u₁ r₁ s₁) u₂ r₂ s₂).filter
        (fun m => m.role == "assistant")).length = 2 ∧
    onClearSuccess (onSendSuccess (onSendSuccess [] u₁ r₁ s₁) u₂ r₂ s₂) = [] := by
  refine ⟨?_, rfl, rfl, rfl, rfl, rfl⟩
  intro prev u r s
  simp [onSendSuccess]

/-! ## Claim C2 -/

/-- **C2** (amended): no outgoing call is ever retried — the client and the
search route each make exactly one fetch attempt per request (in particular
there is no unbounded retry loop), and a transient failure (5xx) on that
single attempt is surfaced directly to the caller as an `APIError` carrying
the backend status.  (The original claim's "retried exactly once" does not
hold: the code contains no retry at all, see `c2_counterexample`.) -/
theorem c2_no_retry (b : Nat → FetchBehavior) (timeout : Nat)
    (p : SearchQueryParams) (bk : BackendBehavior) :
    (clientRequest b timeout).2 = 1 ∧
    (searchRoute p bk).backendCalls.length ≤ 1 ∧
    (∀ t r, b 0 = .completesAt t r → t < timeout → is5xx r = true →
      ∃ m d, (clientRequest b timeout).1 = .apiError m r.status d) := by
  refine ⟨?_, ?_, ?_⟩
  · unfold clientRequest
    cases fetchWithTimeout (b 0) timeout <;> rfl
  · unfold searchRoute
    split
    · simp
    · cases bk with
      | netError msg => simp
      | responds r =>
        by_cases hok : respOk r = true
        · simp only [hok, if_true]
          cases r.jsonBody <;> simp
        · simp only [Bool.not_eq_true] at hok
          simp [hok]
  · intro t r hb ht h5
    have h5' : 500 ≤ r.status ∧ r.status < 600 := by
      simpa [is5xx, Bool.and_eq_true, decide_eq_true_eq] using h5
    have hok : respOk r = false := by
      rw [Bool.eq_false_iff]
      intro hc
      simp only [respOk, Bool.and_eq_true, decide_eq_true_eq] at hc
      omega
    unfold clientRequest
    rw [hb]
    unfold fetchWithTimeout
    simp only [ht, if_true]
    unfold handleResponse
    simp only [hok]
    exact ⟨_, _, rfl⟩

/-- **C2** counterexample: a 5xx response on the first attempt is *not*
followed by a retry — the client makes exactly one attempt, not the two
("one retry") the claim requires. -/
theorem c2_counterexample :
    is5xx { status := 500, contentType := none, jsonBody := none, textBody := "" } = true ∧
    (clientRequest
        (fun _ => .completesAt 0 { status := 500, contentType := none,
                                   jsonBody := none, textBody := "" }) 30000).2 = 1 ∧
    (clientRequest
        (fun _ => .completesAt 0 { status := 500, contentType := none,
                                   jsonBody := none, textBody := "" }) 30000).2 ≠ 2 := by
  refine ⟨by decide, rfl, by decide⟩

/-- **C2** witness: the amended theorem applied to a request whose single
attempt yields a 500 response within the timeout. -/
theorem c2_witness :
    (clientRequest
        (fun _ => .completesAt 0 { status := 500, contentType := none,
                                   jsonBody := none, textBody := "" }) 30000).2 = 1 ∧
    ∃ m d, (clientRequest
        (fun _ => .completesAt 0 { status := 500, contentType := none,
                                   jsonBody := none, textBody := "" }) 30000).1
      = .apiError m 500 d :=
  ⟨(c2_no_retry
      (fun _ => .completesAt 0 { status := 500, contentType := none,
                                 jsonBody := none, textBody := "" }) 30000
      { q := none, page := none, page_size := none,
        semantic := none, rerank := none, summarize := none } (.netError "e")).1,
   (c2_no_retry
      (fun _ => .completesAt 0 { status := 500, contentType := none,
                                 jsonBody := none, textBody := "" }) 30000
      { q := none, page := none, page_size := none,
        semantic := none, rerank := none, summarize := none } (.netError "e")).2.2
     0 { status := 500, contentType := none, jsonBody := none, textBody := "" }
     rfl (by decide) (by decide)⟩

/-! ## Claim C8 -/

/-- **C8**: every valid `GET /search` is forwarded to the backend `/search`
URL with exactly the caller's `q`, `page` and `page_size` (defaults `"1"`
and `"10"`), the `semantic`/`rerank`/`summarize` flags attached exactly
when their effective value is the string `"true"` (defaults `"false"`,
`"true"`, `"true"`); an ok backend response's JSON body is returned
unchanged, and a non-ok backend response is replayed with its status code
and a JSON error body. -/
theorem c8_forwarding (p : SearchQueryParams) (bk : BackendBehavior)
    (hq : paramBlank p.q = false) :
    ((searchRoute p bk).backendCalls =
      [{ q := (p.q).getD ""
         page := jsParamOr p.page "1"
         page_size := jsParamOr p.page_size "10"
         semantic := if jsParamOr p.semantic "false" = "true" then some "true" else none
         rerank := if jsParamOr p.rerank "true" = "true" then some "true" else none
         summarize := if jsParamOr p.summarize "true" = "true" then some "true" else none }]) ∧
    (∀ r data, bk = .responds r → respOk r = true → r.jsonBody = some data →
      (searchRoute p bk).output = { status := 200, body := data }) ∧
    (∀ r, bk = .responds r → respOk r = false →
      (searchRoute p bk).output.status = r.status ∧
      (searchRoute p bk).output.body =
        .obj [("error", jsFieldOr ((r.jsonBody).getD (.obj [])) "detail" (.str "Search failed")),
              ("status", .num r.status)]) := by
  refine ⟨?_, ?_, ?_⟩
  · unfold searchRoute buildBackendSearchParams
    simp only [hq, Bool.false_eq_true, if_false]
    cases bk with
    | netError msg => rfl
    | responds r =>
      by_cases hok : respOk r = true
      · simp only [hok, if_true]
        cases r.jsonBody <;> rfl
      · simp only [Bool.not_eq_true] at hok
        simp [hok]
  · intro r data hbk hok hj
    subst hbk
    unfold searchRoute
    simp [hq, hok, hj]
  · intro r hbk hok
    subst hbk
    unfold searchRoute
    simp [hq, hok]

/-- **C8** witness: a plain `q=flu` request — defaults applied, `semantic`
absent, `rerank` and `summarize` attached, and the ok backend body replayed
unchanged. -/
theorem c8_witness :
    paramBlank (some "flu") = false ∧
    (searchRoute { q := some "flu", page := none, page_size := none,
                   semantic := none, rerank := none, summarize := none }
        (.responds { status := 200, contentType := some "application/json",
                     jsonBody := some (.str "ok"), textBody := "" })).backendCalls =
      [{ q := "flu", page := "1", page_size := "10",
         semantic := none, rerank := some "true", summarize := some "true" }] ∧
    (searchRoute { q := some "flu", page := none, page_size := none,
                   semantic := none, rerank := none, summarize := none }
        (.responds { status := 200, contentType := some "application/json",
                     jsonBody := some (.str "ok"), textBody := "" })).output =
      { status := 200, body := .str "ok" } :=
  ⟨by decide,
   (c8_forwarding
      { q := some "flu", page := none, page_size := none,
        semantic := none, rerank := none, summarize := none }
      (.responds { status := 200, contentType := some "application/json",
                   jsonBody := some (.str "ok"), textBody := "" }) (by decide)).1,
   (c8_forwarding
      { q := some "flu", page := none, page_size := none,
        semantic := none, rerank := none, summarize := none }
      (.responds { status := 200, contentType := some "application/json",
                   jsonBody := some (.str "ok"), textBody := "" }) (by decide)).2.1
     { status := 200, contentType := some "application/json",
       jsonBody := some (.str "ok"), textBody := "" }
     (.str "ok") rfl (by decide) rfl⟩

/-! ## Claim C9 -/

/-- **C9** (amended): every `DELETE /chat` carrying a *nonempty*
`session_id` clears exactly that session — the handler DELETEs the backend
endpoint `/chat/session/{session_id}` and answers `{success: true}` when
the backend succeeds; when `session_id` is absent *or empty* it answers 400
`'session_id is required'` and contacts no backend, leaving every session
unchanged. -/
theorem c9_clear_session (sid : Param) (bk : BackendBehavior) :
    (∀ s, sid = some s → s ≠ "" →
      (chatDeleteRoute sid bk).backendDeletes = ["/chat/session/" ++ s] ∧
      (∀ r, bk = .responds r → respOk r = true →
        (chatDeleteRoute sid bk).output =
          { status := 200, body := .obj [("success", .bool true)] })) ∧
    ((sid = none ∨ sid = some "") →
      (chatDeleteRoute sid bk).output.status = 400 ∧
      (chatDeleteRoute sid bk).output.body = .obj [("error", .str "session_id is required")] ∧
      (chatDeleteRoute sid bk).backendDeletes = []) := by
  constructor
  · intro s hs hne
    subst hs
    unfold chatDeleteRoute
    simp only [Option.getD_some, hne, if_false]
    refine ⟨?_, ?_⟩
    · cases bk with
      | netError msg => rfl
      | responds r =>
        by_cases hok : respOk r = true
        · simp [hok]
        · simp only [Bool.not_eq_true] at hok
          simp [hok]
    · intro r hbk hok
      subst hbk
      simp [hok]
  · intro hs
    rcases hs with h | h <;> subst h <;> simp [chatDeleteRoute]

/-- **C9** counterexample: a `DELETE /chat` request that *does* carry a
`session_id` parameter — with the empty string as its value — is rejected
with a 400 and no backend call, so the session is not cleared, contrary to
the claim's "for every DELETE /chat request carrying a session_id
parameter". -/
theorem c9_counterexample :
    (chatDeleteRoute (some "")
        (.responds { status := 200, contentType := some "application/json",
                     jsonBody := some (.obj []), textBody := "" })).backendDeletes = [] ∧
    (chatDeleteRoute (some "")
        (.responds { status := 200, contentType := some "application/json",
                     jsonBody := some (.obj []), textBody := "" })).output.status = 400 := by
  constructor
  · decide
  · decide

/-- **C9** witness: the amended theorem applied to `session_id=s1` with a
succeeding backend, and to an absent `session_id`. -/
theorem c9_witness :
    (chatDeleteRoute (some "s1")
        (.responds { status := 200, contentType := some "application/json",
                     jsonBody := some (.obj []), textBody := "" })).backendDeletes =
      ["/chat/session/s1"] ∧
    (chatDeleteRoute none (.netError "down")).output.status = 400 :=
  ⟨((c9_clear_session (some "s1")
      (.responds { status := 200, contentType := some "application/json",
                   jsonBody := some (.obj []), textBody := "" })).1 "s1" rfl
      (by decide)).1,
   ((c9_clear_session none (.netError "down")).2 (Or.inl rfl)).1⟩

/-! ## Claim C10 -/

/-- **C10**: the client never resolves a non-ok response — it throws an
`APIError` whose `status` is the HTTP status and whose message is the
body's `error` or `message` field, falling back to `'HTTP <status>'`; an
ok response resolves with the parsed JSON body when the content type is
JSON and with the raw text otherwise. -/
theorem c10_handle_response (r : HttpResponse) :
    (respOk r = false → ∀ j, handleResponse r ≠ .resolvedJson j) ∧
    (respOk r = false → ∀ t, handleResponse r ≠ .resolvedText t) ∧
    (respOk r = false →
      handleResponse r =
        .apiError
          (errorMessageChain
            (if isJsonContentType r.contentType then (r.jsonBody).getD (.obj []) else .obj [])
            r.status)
          r.status
          (some (if isJsonContentType r.contentType then (r.jsonBody).getD (.obj []) else .obj []))) ∧
    (respOk r = true → isJsonContentType r.contentType = true → ∀ j, r.jsonBody = some j →
      handleResponse r = .resolvedJson j) ∧
    (respOk r = true → isJsonContentType r.contentType = false →
      handleResponse r = .resolvedText r.textBody) := by
  have hchain : respOk r = false →
      handleResponse r =
        .apiError
          (errorMessageChain
            (if isJsonContentType r.contentType then (r.jsonBody).getD (.obj []) else .obj [])
            r.status)
          r.status
          (some (if isJsonContentType r.contentType then (r.jsonBody).getD (.obj []) else .obj [])) := by
    intro hok
    unfold handleResponse
    simp [hok]
  refine ⟨?_, ?_, hchain, ?_, ?_⟩
  · intro hok j
    rw [hchain hok]
    intro h
    exact ClientResult.noConfusion h
  · intro hok t
    rw [hchain hok]
    intro h
    exact ClientResult.noConfusion h
  · intro hok hj j hbody
    unfold handleResponse
    simp [hok, hj, hbody]
  · intro hok hj
    unfold handleResponse
    simp [hok, hj]

/-- **C10** witness: a 404 without a JSON content type throws
`APIError('HTTP 404', 404, {})`, and an ok JSON response resolves with its
parsed body. -/
theorem c10_witness :
    respOk { status := 404, contentType := none, jsonBody := none, textBody := "gone" } = false ∧
    handleResponse { status := 404, contentType := none, jsonBody := none, textBody := "gone" } =
      .apiError (.str "HTTP 404") 404 (some (.obj [])) ∧
    handleResponse { status := 200, contentType := some "application/json",
                     jsonBody := some (.arr [.num 1]), textBody := "" } =
      .resolvedJson (.arr [.num 1]) := by
  refine ⟨by decide, ?_, ?_⟩
  · exact (c10_handle_response
      { status := 404, contentType := none, jsonBody := none, textBody := "gone" }).2.2.1
      (by decide)
  · exact (c10_handle_response
      { status := 200, contentType := some "application/json",
        jsonBody := some (.arr [.num 1]), textBody := "" }).2.2.2.1
      (by decide) (by decide) (.arr [.num 1]) rfl

/-! ## Order-theoretic helper lemmas for the ranking order -/

/-- Characters with equal code points are equal. -/
theorem charToNat_inj {a b : Char} (h : a.toNat = b.toNat) : a = b :=
  Char.eq_of_val_eq (UInt32.eq_of_toBitVec_eq (BitVec.eq_of_toNat_eq h))

/-- Totality of the lexicographic id order. -/
theorem lexLe_total : ∀ (a b : List Char), lexLe a b = true ∨ lexLe b a = true := by
  intro a
  induction a with
  | nil => intro b; left; rfl
  | cons x xs ih =>
    intro b
    cases b with
    | nil => right; rfl
    | cons y ys =>
      by_cases h1 : x.toNat < y.toNat
      · left; simp [lexLe, h1]
      · by_cases h2 : y.toNat < x.toNat
        · right; simp [lexLe, h2]
        · rcases ih ys with h | h
          · left; simp [lexLe, h1, h2, h]
          · right; simp [lexLe, h1, h2, h]

/-- Transitivity of the lexicographic id order. -/
theorem lexLe_trans : ∀ (a b c : List Char),
    lexLe a b = true → lexLe b c = true → lexLe a c = true := by
  intro a
  induction a with
  | nil => intro b c _ _; rfl
  | cons x xs ih =>
    intro b c hab hbc
    cases b with
    | nil => exact absurd hab (by simp [lexLe])
    | cons y ys =>
      cases c with
      | nil => exact absurd hbc (by simp [lexLe])
      | cons z zs =>
        simp only [lexLe] at hab hbc ⊢
        split_ifs at hab hbc ⊢ <;>
          first
            | rfl
            | (exact ih ys zs hab hbc)
            | omega

/-- Antisymmetry of the lexicographic id order. -/
theorem lexLe_antisymm : ∀ (a b : List Char),
    lexLe a b = true → lexLe b a = true → a = b := by
  intro a
  induction a with
  | nil =>
    intro b hab hba
    cases b with
    | nil => rfl
    | cons y ys => exact absurd hba (by simp [lexLe])
  | cons x xs ih =>
    intro b hab hba
    cases b with
    | nil => exact absurd hab (by simp [lexLe])
    | cons y ys =>
      simp only [lexLe] at hab hba
      rcases Nat.lt_trichotomy x.toNat y.toNat with h | h | h
      · rw [if_neg (by omega), if_pos h] at hba
        exact absurd hba (by simp)
      · have hx : x = y := charToNat_inj h
        subst hx
        rw [if_neg (by omega), if_neg (by omega)] at hab hba
        rw [ih ys hab hba]
      · rw [if_neg (by omega), if_pos h] at hab
        exact absurd hab (by simp)

/-- A sorted permutation of a sorted list is that list itself, provided the
order is antisymmetric on the list's members — the determinism core of
§4.1/§4.3 ("ties broken … guarantees full determinism"). -/
theorem sorted_perm_eq {α : Type} {r : α → α → Prop} :
    ∀ {l₁ l₂ : List α}, l₁.Perm l₂ → l₁.Sorted r → l₂.Sorted r →
      (∀ a ∈ l₂, ∀ b ∈ l₂, r a b → r b a → a = b) → l₁ = l₂ := by
  intro l₁
  induction l₁ with
  | nil =>
    intro l₂ hp _ _ _
    exact hp.nil_eq
  | cons a t₁ ih =>
    intro l₂ hp hs₁ hs₂ hanti
    cases l₂ with
    | nil => exact (List.cons_ne_nil a t₁ hp.eq_nil).elim
    | cons b t₂ =>
      have ha2 : a ∈ b :: t₂ := hp.subset (List.mem_cons_self a t₁)
      have hab : a = b := by
        rcases List.mem_cons.mp ha2 with h | h
        · exact h
        · have hba : r b a := List.rel_of_sorted_cons hs₂ a h
          have hb1 : b ∈ a :: t₁ := hp.symm.subset (List.mem_cons_self b t₂)
          rcases List.mem_cons.mp hb1 with h' | h'
          · exact h'.symm
          · have hab' : r a b := List.rel_of_sorted_cons hs₁ b h'
            exact hanti a ha2 b (List.mem_cons_self b t₂) hab' hba
      subst hab
      have hp' : t₁.Perm t₂ := (List.perm_cons a).mp hp
      have ht : t₁ = t₂ :=
        ih hp' (List.Sorted.of_cons hs₁) (List.Sorted.of_cons hs₂)
          (fun x hx y hy => hanti x (List.mem_cons_of_mem _ hx) y (List.mem_cons_of_mem _ hy))
      rw [ht]

/-- The ranked candidate list is a permutation of the scored matches. -/
theorem rankCandidates_perm (q : String) (corpus : List Entity) :
    (rankCandidates q corpus).Perm
      ((corpus.filter (entityMatches q)).map
        (fun e => { entity := e, score := lexicalScore q e })) :=
  List.perm_insertionSort _ _

/-- The ranked candidate list is sorted by the ranking order. -/
theorem rankCandidates_sorted (q : String) (corpus : List Entity) :
    (rankCandidates q corpus).Sorted candBefore := by
  haveI : IsTotal SearchCandidate candBefore := by
    constructor
    intro a b
    rcases lt_trichotomy a.score b.score with h | h | h
    · exact Or.inr (Or.inl h)
    · rcases lexLe_total a.entity.id.data b.entity.id.data with hle | hle
      · exact Or.inl (Or.inr ⟨h, hle⟩)
      · exact Or.inr (Or.inr ⟨h.symm, hle⟩)
    · exact Or.inl (Or.inl h)
  haveI : IsTrans SearchCandidate candBefore := by
    constructor
    intro a b c hab hbc
    rcases hab with hab | ⟨hab, hab'⟩ <;> rcases hbc with hbc | ⟨hbc, hbc'⟩
    · exact Or.inl (lt_trans hbc hab)
    · exact Or.inl (hbc ▸ hab)
    · exact Or.inl (hab ▸ hbc)
    · exact Or.inr ⟨hab.trans hbc, lexLe_trans _ _ _ hab' hbc'⟩
  exact List.sorted_insertionSort candBefore _

/-- On a corpus with globally unique entity ids (§3 invariant), the ranking
order is antisymmetric on the ranked candidates. -/
theorem rankCandidates_antisymmOn (q : String) (corpus : List Entity)
    (hnd : (corpus.map Entity.id).Nodup) :
    ∀ a ∈ rankCandidates q corpus, ∀ b ∈ rankCandidates q corpus,
      candBefore a b → candBefore b a → a = b := by
  intro a ha b hb hab hba
  have hscore : a.score = b.score := by
    rcases hab with h | ⟨h, _⟩
    · rcases hba with h' | ⟨h', _⟩
      · exact absurd h' (lt_asymm h)
      · exact h'.symm
    · exact h
  have hid : a.entity.id = b.entity.id := by
    have h1 : lexLe a.entity.id.data b.entity.id.data = true := by
      rcases hab with h | ⟨_, h⟩
      · rw [hscore] at h; exact absurd h (lt_irrefl _)
      · exact h
    have h2 : lexLe b.entity.id.data a.entity.id.data = true := by
      rcases hba with h | ⟨_, h⟩
      · rw [← hscore] at h; exact absurd h (lt_irrefl _)
      · exact h
    exact congrArg String.mk (lexLe_antisymm _ _ h1 h2)
  have ha' := (rankCandidates_perm q corpus).subset ha
  have hb' := (rankCandidates_perm q corpus).subset hb
  rcases List.mem_map.mp ha' with ⟨ea, hea, rfl⟩
  rcases List.mem_map.mp hb' with ⟨eb, heb, rfl⟩
  have he : ea = eb :=
    List.inj_on_of_nodup_map hnd (List.mem_of_mem_filter hea)
      (List.mem_of_mem_filter heb) hid
  rw [he]

/-! ## Claim C5 -/

/-- **C5**: keyword search over a corpus in which nothing matches the query
returns the empty list (it is a total function into lists, not an error),
and every candidate it ever returns lexically matches the query and comes
from the corpus — no unrelated entities. -/
theorem c5_no_match_empty (q : String) (limit : Nat) (corpus : List Entity) :
    ((∀ e ∈ corpus, entityMatches q e = false) → keywordSearch q limit corpus = []) ∧
    (∀ c ∈ keywordSearch q limit corpus,
      entityMatches q c.entity = true ∧ c.entity ∈ corpus) := by
  constructor
  · intro h
    have hf : corpus.filter (entityMatches q) = [] := by
      rw [List.filter_eq_nil_iff]
      intro e he
      simp [h e he]
    unfold keywordSearch rankCandidates
    rw [hf]
    simp
  · intro c hc
    have hc1 : c ∈ rankCandidates q corpus := List.take_subset _ _ hc
    have hc2 := (rankCandidates_perm q corpus).subset hc1
    rcases List.mem_map.mp hc2 with ⟨e, hef, rfl⟩
    exact ⟨List.of_mem_filter hef, List.mem_of_mem_filter hef⟩

/-- **C5** witness: a corpus of two entities, none matching the query
`"zzz"`, yields the empty result list. -/
theorem c5_witness :
    (∀ e ∈ ([{ id := "disease:influenza_A", label := "Influenza A", description := "flu virus" },
             { id := "disease:malaria", label := "malaria", description := "mosquito disease" }] :
        List Entity), entityMatches "zzz" e = false) ∧
    keywordSearch "zzz" 10
      [{ id := "disease:influenza_A", label := "Influenza A", description := "flu virus" },
       { id := "disease:malaria", label := "malaria", description := "mosquito disease" }] = [] :=
  ⟨by decide,
   (c5_no_match_empty "zzz" 10
      [{ id := "disease:influenza_A", label := "Influenza A", description := "flu virus" },
       { id := "disease:malaria", label := "malaria", description := "mosquito disease" }]).1
     (by decide)⟩

/-! ## Claim C6 -/

/-- **C6**: search is a deterministic function of the query, the limit and
the corpus — repeating the identical request against an unchanged corpus
returns the identical result list — and, on a corpus with unique entity
ids, the ranked order is the *unique* `candBefore`-sorted arrangement of
the scored matches, so identical inputs can never produce two different
orders or scores. -/
theorem c6_deterministic (q : String) (limit : Nat) (corpus : List Entity)
    (hnd : (corpus.map Entity.id).Nodup) :
    keywordSearch q limit corpus = keywordSearch q limit corpus ∧
    ∀ l : List SearchCandidate,
      l.Perm (rankCandidates q corpus) → l.Sorted candBefore →
      l = rankCandidates q corpus := by
  refine ⟨rfl, ?_⟩
  intro l hp hs
  exact sorted_perm_eq hp hs (rankCandidates_sorted q corpus)
    (rankCandidates_antisymmOn q corpus hnd)

/-- **C6** witness: the determinism theorem applied to a concrete two-entity
corpus with distinct ids. -/
theorem c6_witness :
    (([{ id := "disease:influenza_A", label := "Influenza A", description := "flu virus" },
       { id := "disease:malaria", label := "malaria", description := "mosquito disease" }] :
        List Entity).map Entity.id).Nodup ∧
    keywordSearch "malaria" 10
      [{ id := "disease:influenza_A", label := "Influenza A", description := "flu virus" },
       { id := "disease:malaria", label := "malaria", description := "mosquito disease" }] =
    keywordSearch "malaria" 10
      [{ id := "disease:influenza_A", label := "Influenza A", description := "flu virus" },
       { id := "disease:malaria", label := "malaria", description := "mosquito disease" }] :=
  ⟨by decide,
   (c6_deterministic "malaria" 10
      [{ id := "disease:influenza_A", label := "Influenza A", description := "flu virus" },
       { id := "disease:malaria", label := "malaria", description := "mosquito disease" }]
      (by decide)).1⟩

/-! ## Claim C7 -/

/-- Concatenating the first `n` consecutive `pageSize`-windows of a list
reconstructs its first `n * pageSize` elements. -/
theorem range_flatMap_take_drop {α : Type} (l : List α) (ps : Nat) :
    ∀ n, (List.range n).flatMap (fun i => (l.drop (i * ps)).take ps) = l.take (n * ps) := by
  intro n
  induction n with
  | zero => simp
  | succ n ih =>
    rw [List.range_succ, List.flatMap_append, ih]
    simp only [List.flatMap_cons, List.flatMap_nil, List.append_nil]
    rw [Nat.succ_mul, List.take_add]

/-- **C7**: a returned page never holds more than `pageSize` items, and the
consecutive pages `1..n` (for any `n` whose windows cover the list)
concatenate back to the sorted candidate list exactly — every item exactly
once, no gaps, no duplicates. -/
theorem c7_pagination (maxPageSize pageSize n : Nat) (results : List SearchCandidate)
    (hn : results.length ≤ n * min pageSize maxPageSize) :
    (∀ page, (paginate maxPageSize results page pageSize).results.length ≤ pageSize) ∧
    (List.range n).flatMap
        (fun i => (paginate maxPageSize results (i + 1) pageSize).results) = results := by
  constructor
  · intro page
    unfold paginate
    simp only
    calc ((results.drop ((page - 1) * min pageSize maxPageSize)).take
            (min pageSize maxPageSize)).length
        ≤ min pageSize maxPageSize := by
          rw [List.length_take]; exact min_le_left _ _
      _ ≤ pageSize := min_le_left _ _
  · unfold paginate
    simp only [Nat.add_sub_cancel]
    rw [range_flatMap_take_drop]
    exact List.take_of_length_le hn

/-- **C7** witness: three candidates, page size 2 — two consecutive pages
reconstruct the list exactly. -/
theorem c7_witness :
    ([({ entity := { id := "a", label := "a", description := "a" }, score := 1 } : SearchCandidate),
      { entity := { id := "b", label := "b", description := "b" }, score := 1 },
      { entity := { id := "c", label := "c", description := "c" }, score := 1 }]).length
        ≤ 2 * min 2 100 ∧
    (List.range 2).flatMap
        (fun i => (paginate 100
          [{ entity := { id := "a", label := "a", description := "a" }, score := 1 },
           { entity := { id := "b", label := "b", description := "b" }, score := 1 },
           { entity := { id := "c", label := "c", description := "c" }, score := 1 }]
          (i + 1) 2).results) =
      [{ entity := { id := "a", label := "a", description := "a" }, score := 1 },
       { entity := { id := "b", label := "b", description := "b" }, score := 1 },
       { entity := { id := "c", label := "c", description := "c" }, score := 1 }] :=
  ⟨by decide,
   (c7_pagination 100 2 2
      [{ entity := { id := "a", label := "a", description := "a" }, score := 1 },
       { entity := { id := "b", label := "b", description := "b" }, score := 1 },
       { entity := { id := "c", label := "c", description := "c" }, score := 1 }]
      (by decide)).2⟩

end EpiHelix

